import Mathlib

set_option maxHeartbeats 2000000
set_option maxRecDepth 8000

/-!
Shallow embedding of the URL classifier of `src/helpers/helpers.ts` and of the
locator-resolution logic of `src/helpers/pageClass.ts`.

The JavaScript regexes of `helpers.ts` are embedded as executable boolean
matchers over `List Char`.  `RegExp.test` searches for a match anywhere in the
string unless the pattern is anchored; this is embedded by scanning `l.tails`.
The regex metacharacter `.` matches every character except an ECMAScript line
terminator (LF, CR, U+2028, U+2029), `\w` matches ASCII letters, digits and
underscore, and `\d` matches ASCII digits.
-/

/-- Regex `.` (dot, no `s` flag): any character except an ECMAScript line
terminator, i.e. LF, CR, U+2028 (line separator) or U+2029 (paragraph
separator). -/
def notNL (c : Char) : Bool :=
  !(c == '\n' || c == '\r' || c == '\u2028' || c == '\u2029')

/-- Regex `\w` (also `[\w\d]`): ASCII letter, digit or underscore. -/
def wordC (c : Char) : Bool := c.isAlpha || c.isDigit || c == '_'

/-- Regex `[\w-]`: word character or hyphen. -/
def wordDash (c : Char) : Bool := wordC c || c == '-'

/-- Match a literal piece of a regex: when `p` is a prefix of `r`, consume it
and return the rest of `r`; otherwise fail. -/
def litP : List Char → List Char → Option (List Char)
  | [], rest => some rest
  | _ :: _, [] => none
  | c :: cs, d :: ds => if c == d then litP cs ds else none

/-- Match a one-or-more repetition `X+` of a character class `f`, by maximal
munch.  This is equivalent to the backtracking semantics at every use site in
`helpers.ts`, because there the character that follows `X+` in the pattern
(`&` or `.`) is never itself in the class `f`. -/
def plusP (f : Char → Bool) (r : List Char) : Option (List Char) :=
  match r with
  | [] => none
  | c :: cs => if f c then some (cs.dropWhile f) else none

/-- Unanchored search for a literal (regex with no metacharacters and no
anchors): true when `p` occurs as a contiguous substring of `l`. -/
def containsSeq (p l : List Char) : Bool := l.tails.any (fun t => (litP p t).isSome)

/-!
`videoPattern = /https?:\/\/.*\.(mp4|webm|ogg|mp3|wav|m4a|flac|aac)(\?.*)?$/`
(`src/helpers/helpers.ts` lines 11-12).  The pattern is unanchored on the left
and anchored by `$` on the right.
-/

/-- The alternation `(mp4|webm|ogg|mp3|wav|m4a|flac|aac)` of `videoPattern`. -/
def videoExts : List (List Char) :=
  [("mp4" : String).data, ("webm" : String).data, ("ogg" : String).data,
   ("mp3" : String).data, ("wav" : String).data, ("m4a" : String).data,
   ("flac" : String).data, ("aac" : String).data]

/-- The tail `\.(mp4|...|aac)(\?.*)?$` of `videoPattern`: a dot, one of the
extensions, then either the end of the string or a `?` followed by arbitrary
non-line-terminator characters running to the end of the string. -/
def vtail (r : List Char) : Bool :=
  videoExts.any (fun e =>
    match litP ('.' :: e) r with
    | some q => q.isEmpty || ((q.head? == some '?') && (q.drop 1).all notNL)
    | none => false)

/-- The part `.*\.(mp4|...)(\?.*)?$` of `videoPattern`: skip any number of
non-line-terminator characters (the `.*`), then match `vtail` running to the
end. -/
def vrest : List Char → Bool
  | [] => vtail []
  | c :: cs => vtail (c :: cs) || (notNL c && vrest cs)

/-- A match of `videoPattern` starting exactly at the head of `t` (the
alternation `https?` is expanded into the two scheme literals). -/
def videoAt (t : List Char) : Bool :=
  match litP ("http://" : String).data t with
  | some r => vrest r
  | none =>
    match litP ("https://" : String).data t with
    | some r => vrest r
    | none => false

/-- `videoPattern.test url`: unanchored search. -/
def videoTest (l : List Char) : Bool := l.tails.any videoAt

/-!
`gaPatterns` (`src/helpers/helpers.ts` lines 13-16):
first `/^(https?:\/\/)?(www\.)?(analytics\.google\.com|www\.google-analytics\.com)(\/.*)?$/i`
(anchored on both sides, case-insensitive), then
`/https:\/\/googleads\.g\.doubleclick\.net\/pagead\/id/` (unanchored literal).
-/

/-- The optional path group `(\/.*)?$` of the first GA pattern: the remainder
is empty, or a slash followed by non-line-terminator characters to the end. -/
def gaPath (r : List Char) : Bool :=
  r.isEmpty || ((r.head? == some '/') && (r.drop 1).all notNL)

/-- The host alternation of the first GA pattern followed by the path group. -/
def gaHost (r : List Char) : Bool :=
  (match litP ("analytics.google.com" : String).data r with
   | some q => gaPath q
   | none => false) ||
  (match litP ("www.google-analytics.com" : String).data r with
   | some q => gaPath q
   | none => false)

/-- The optional `(www\.)?` group: try without and with the `www.` literal. -/
def gaOptWww (r : List Char) : Bool :=
  gaHost r ||
  (match litP ("www." : String).data r with
   | some q => gaHost q
   | none => false)

/-- Full anchored case-insensitive match of the first GA pattern.  The `i`
flag is embedded by lowercasing the subject; the pattern literals are already
lowercase.  The optional scheme group is expanded into its three branches. -/
def gaTest1 (l : List Char) : Bool :=
  let m := l.map Char.toLower
  gaOptWww m ||
  (match litP ("http://" : String).data m with
   | some q => gaOptWww q
   | none => false) ||
  (match litP ("https://" : String).data m with
   | some q => gaOptWww q
   | none => false)

/-- `gaPatterns[1].test url`: the unanchored DoubleClick ad-id literal. -/
def gaTest2 (l : List Char) : Bool :=
  containsSeq ("https://googleads.g.doubleclick.net/pagead/id" : String).data l

/-- `gaPatterns.some (p => p.test url)`. -/
def gaTest (l : List Char) : Bool := gaTest1 l || gaTest2 l

/-!
`youtubePatterns` (`src/helpers/helpers.ts` lines 17-20).  The nested
alternation `api\/stats\/(playback|atr|qoe|ptracking|watchtime)\?` is expanded
into five literals.
-/

/-- The path alternation of the first YouTube pattern. -/
def ytAlts : List (List Char) :=
  [("watch?v=" : String).data, ("embed/" : String).data,
   ("api/stats/playback?" : String).data, ("api/stats/atr?" : String).data,
   ("api/stats/qoe?" : String).data, ("api/stats/ptracking?" : String).data,
   ("api/stats/watchtime?" : String).data, ("ptracking?" : String).data,
   ("v/" : String).data, ("c/" : String).data, ("user/" : String).data,
   ("channel/" : String).data, ("playlist?list=" : String).data,
   ("shorts/" : String).data, ("results?search_query=" : String).data]

/-- After the host and one path alternative, the first YouTube pattern needs
`[\w-]+(&[\w=]*)*`.  The pattern is unanchored on the right, so a match of
this suffix exists at a position exactly when at least one `[\w-]` character
follows (the `+` can take a single character and both stars can take zero). -/
def ytAfterHost (r : List Char) : Bool :=
  ytAlts.any (fun a =>
    match litP a r with
    | some q =>
      match q with
      | c :: _ => wordDash c
      | [] => false
    | none => false)

/-- A match of the first YouTube pattern starting at the head of `t`:
`https:\/\/(www\.)?youtube\.com\/` then `ytAfterHost`. -/
def ytAt (t : List Char) : Bool :=
  match litP ("https://" : String).data t with
  | some r =>
    (match litP ("youtube.com/" : String).data r with
     | some q => ytAfterHost q
     | none => false) ||
    (match litP ("www." : String).data r with
     | some r2 =>
       match litP ("youtube.com/" : String).data r2 with
       | some q => ytAfterHost q
       | none => false
     | none => false)
  | none => false

/-- `youtubePatterns[0].test url`. -/
def ytTest1 (l : List Char) : Bool := l.tails.any ytAt

/-- `youtubePatterns[1] = /https:\/\/www\.youtube\.com\/generate_204\?.*/`:
unanchored, and the trailing `.*` can take zero characters, so a match exists
exactly when the literal up to and including the `?` occurs in `l`. -/
def ytTest2 (l : List Char) : Bool :=
  containsSeq ("https://www.youtube.com/generate_204?" : String).data l

/-- `youtubePatterns.some (p => p.test url)`. -/
def ytTest (l : List Char) : Bool := ytTest1 l || ytTest2 l

/-!
`recaptchaPatterns` (`src/helpers/helpers.ts` lines 21-25): three unanchored
patterns, each a literal followed by `.*` (which can take zero characters).
-/

/-- The literal of the first recaptcha pattern. -/
def recPat1 : List Char := ("https://www.google.com/recaptcha/" : String).data

/-- `recaptchaPatterns[0].test url`. -/
def recTest1 (l : List Char) : Bool := containsSeq recPat1 l

/-- `recaptchaPatterns[1].test url` (literal `.../recaptcha/api2/`). -/
def recTest2 (l : List Char) : Bool := containsSeq (recPat1 ++ ("api2/" : String).data) l

/-- `recaptchaPatterns[2].test url` (literal `.../recaptcha/enterprise/`). -/
def recTest3 (l : List Char) : Bool := containsSeq (recPat1 ++ ("enterprise/" : String).data) l

/-- `recaptchaPatterns.some (p => p.test url)`. -/
def recTest (l : List Char) : Bool := recTest1 l || recTest2 l || recTest3 l

/-!
`exceptPattern` (`src/helpers/helpers.ts` lines 26-27):
`/https:\/\/stats\.g\.doubleclick\.net\/g\/collect\?v=\d+&tid=G-[\w\d]+&cid=\d+\.\d+&gtm=[\w\d]+&aip=\d+&dma=\d+&gcd=[\w\d]+&npa=\d+&frm=\d+&tag_exp=\d+/`
unanchored on both sides.  It is embedded as a sequence of literal/class
stages; maximal munch for each `+` is equivalent to backtracking because each
class (`\d`, `[\w\d]`) excludes the character (`&` or `.`) that starts the
following literal.
-/

/-- The literal/class stages of `exceptPattern` after the initial
`...collect?v=` literal and its digits. -/
def excStages : List (List Char × (Char → Bool)) :=
  [(("&tid=G-" : String).data, wordC),
   (("&cid=" : String).data, Char.isDigit),
   (("." : String).data, Char.isDigit),
   (("&gtm=" : String).data, wordC),
   (("&aip=" : String).data, Char.isDigit),
   (("&dma=" : String).data, Char.isDigit),
   (("&gcd=" : String).data, wordC),
   (("&npa=" : String).data, Char.isDigit),
   (("&frm=" : String).data, Char.isDigit),
   (("&tag_exp=" : String).data, Char.isDigit)]

/-- Run one literal/class stage of `exceptPattern`. -/
def runStage (r : Option (List Char)) (s : List Char × (Char → Bool)) : Option (List Char) :=
  (r.bind (litP s.1)).bind (plusP s.2)

/-- A match of `exceptPattern` starting at the head of `t`. -/
def exceptAt (t : List Char) : Bool :=
  (excStages.foldl runStage
    ((litP ("https://stats.g.doubleclick.net/g/collect?v=" : String).data t).bind
      (plusP Char.isDigit))).isSome

/-- `exceptPattern.test url`: unanchored search. -/
def exceptTest (l : List Char) : Bool := l.tails.any exceptAt

/-!
The ignore lists of `src/helpers/helpers.ts` lines 29-34 and the classifier
`LinkType` itself (lines 35-58).
-/

/-- Modelled from the spec: the `main` base-site URL comes from `./routes`,
which is not among the sources; the spec describes it as an external
configuration value (a base site URL) that parametrizes the ignore-list.  It
is passed here as the explicit parameter `m`.  The other two entries are the
literal strings of `exceptUrls` in the source. -/
def exceptUrls (m : String) : List String :=
  ["https://consentcdn.cookiebot.com/consentconfig/7f599eef-471b-4c16-a0c6-40061801485c/localhost/configuration.js",
   m ++ "api/subscribe",
   "https://www.carlyle.com/cdn-cgi/challenge-platform/scripts/jsd/main.js"]

/-- Modelled from the spec: `pageRoutes.financial_results` also comes from the
missing `./routes` module; the spec describes it as a named financial-results
page path.  `exceptPages = [main + pageRoutes.financial_results]` from the
source, with the two configuration values passed as parameters `m` and `fr`. -/
def exceptPages (m fr : String) : List String := [m ++ fr]

/-- The classifier `LinkType (url, page)` of `src/helpers/helpers.ts` lines
35-58, parametrized additionally by the two external configuration strings
`m` (`main`) and `fr` (`pageRoutes.financial_results`) that the source pulls
in from `./routes`. -/
def LinkType (m fr url page : String) : String :=
  if videoTest url.data then "Video"
  else if gaTest url.data then "GA"
  else if ytTest url.data then "YT"
  else if recTest url.data then "Ignore"
  else if exceptTest url.data then "Exception"
  else if (exceptUrls m).any (fun e => e == url) ||
          (exceptPages m fr).any (fun e => e == page) then "Ignore"
  else "NONE"

/-- Variant of `LinkType` that keeps only the first recaptcha pattern,
written to state the redundancy of the `api2/` and `enterprise/` patterns. -/
def LinkTypeSingleRecaptcha (m fr url page : String) : String :=
  if videoTest url.data then "Video"
  else if gaTest url.data then "GA"
  else if ytTest url.data then "YT"
  else if recTest1 url.data then "Ignore"
  else if exceptTest url.data then "Exception"
  else if (exceptUrls m).any (fun e => e == url) ||
          (exceptPages m fr).any (fun e => e == page) then "Ignore"
  else "NONE"

/-!
Data used by the claims about the canonical `exceptPattern` beacon URL: its
ten `name=value` query parameters, and the URL built from an arbitrary
arrangement of such parameters.
-/

/-- The ten query parameters of the canonical beacon URL, in pattern order. -/
def canonParams : List (List Char) :=
  [("v=1" : String).data, ("tid=G-ABC123" : String).data,
   ("cid=1.2" : String).data, ("gtm=xyz" : String).data,
   ("aip=1" : String).data, ("dma=1" : String).data,
   ("gcd=1" : String).data, ("npa=1" : String).data,
   ("frm=1" : String).data, ("tag_exp=1" : String).data]

/-- Join a nonempty rest of a parameter list onto a preceding parameter:
each further parameter is preceded by an ampersand. -/
def joinTail : List (List Char) → List Char
  | [] => []
  | x :: xs => '&' :: (x ++ joinTail xs)

/-- Join a parameter list with ampersand separators. -/
def joinAmp : List (List Char) → List Char
  | [] => []
  | x :: xs => x ++ joinTail xs

/-- The scheme, host, path and `?` of the canonical beacon URL. -/
def canonBase : List Char := ("https://stats.g.doubleclick.net/g/collect?" : String).data

/-- The beacon URL built from a given arrangement of query parameters. -/
def buildUrl (qs : List (List Char)) : List Char := canonBase ++ joinAmp qs

/-- `buildUrl` as a `String`, for feeding to `LinkType`. -/
def buildStr (qs : List (List Char)) : String := String.mk (buildUrl qs)

/-- The canonical beacon URL of the spec. -/
def canonUrl : String :=
  "https://stats.g.doubleclick.net/g/collect?v=1&tid=G-ABC123&cid=1.2&gtm=xyz&aip=1&dma=1&gcd=1&npa=1&frm=1&tag_exp=1"

/-!
Locator resolution, embedded from `src/helpers/pageClass.ts`.  A Playwright
locator chain is embedded as a syntax tree: `page.getByTestId`,
`page.locator(css)`, `page.getByRole`, `page.getByText` are base nodes, and
`locator.locator(css)`, `locator.getByRole`, `locator.filter(\x7bhasText\x7d)`,
`locator.nth` and `locator.last` are chain nodes.
-/

/-- The `roleName` option object: `\x7bname, exact?\x7d`. -/
structure RoleName where
  name : String
  exact : Option Bool
deriving DecidableEq

/-- The `nth` option: a numeric index or the sentinel `"last"`. -/
inductive NthSel where
  | num (n : Int)
  | last
deriving DecidableEq

/-- Embedded Playwright locator expression. -/
inductive Locator where
  | byTestId (testId : String)
  | cssBase (sel : String)
  | byRoleBase (role : String) (rn : Option RoleName)
  | byTextBase (text : String)
  | cssChild (parent : Locator) (sel : String)
  | roleChild (parent : Locator) (role : String) (rn : Option RoleName)
  | filterHasText (parent : Locator) (text : String)
  | nthSel (parent : Locator) (n : Int)
  | lastSel (parent : Locator)
deriving DecidableEq

/-- The optional locator-criteria fields shared by the helper methods
(`ValidateOptions` / `ValidateClickOptions` / `ValidateTextOptions`). -/
structure LocOptions where
  testId : Option String
  id : Option String
  classes : Option String
  tag : Option String
  role : Option String
  roleName : Option RoleName
  text : Option String
  nth : Option NthSel
deriving DecidableEq

/-- Criteria object with every field absent. -/
def emptyOpts : LocOptions := ⟨none, none, none, none, none, none, none, none⟩

/-- JavaScript truthiness of an optional string field: `if (field)` is taken
when the field is present and not the empty string. -/
def strVal (o : Option String) : Option String :=
  match o with
  | some s => if s == "" then none else some s
  | none => none

/-- Which field was used as the base (the `baseUsed` variable of the
source). -/
inductive BaseField where
  | testId
  | id
  | classes
  | tag
  | role
  | text
deriving DecidableEq

/-- The base-selection chain shared by `TestVisible`, `TestExist`,
`clickElement` (and `hoverElement`): testId, id, classes, tag, role, text. -/
def baseVisible (o : LocOptions) : Option (Locator × BaseField) :=
  match strVal o.testId with
  | some s => some (Locator.byTestId s, BaseField.testId)
  | none =>
    match strVal o.id with
    | some s => some (Locator.cssBase ("#" ++ s), BaseField.id)
    | none =>
      match strVal o.classes with
      | some s => some (Locator.cssBase ("." ++ s), BaseField.classes)
      | none =>
        match strVal o.tag with
        | some s => some (Locator.cssBase s, BaseField.tag)
        | none =>
          match strVal o.role with
          | some r => some (Locator.byRoleBase r o.roleName, BaseField.role)
          | none =>
            match strVal o.text with
            | some s => some (Locator.byTextBase s, BaseField.text)
            | none => none

/-- The base-selection chain of `verifyText` (and `verifyAttribute`):
testId, id, classes, tag, role — `text` is the asserted text there, not a
base-eligible locator field. -/
def baseVerifyText (o : LocOptions) : Option (Locator × BaseField) :=
  match strVal o.testId with
  | some s => some (Locator.byTestId s, BaseField.testId)
  | none =>
    match strVal o.id with
    | some s => some (Locator.cssBase ("#" ++ s), BaseField.id)
    | none =>
      match strVal o.classes with
      | some s => some (Locator.cssBase ("." ++ s), BaseField.classes)
      | none =>
        match strVal o.tag with
        | some s => some (Locator.cssBase s, BaseField.tag)
        | none =>
          match strVal o.role with
          | some r => some (Locator.byRoleBase r o.roleName, BaseField.role)
          | none => none

/-- `if (id && baseUsed !== "id") locator = locator.locator('#' + id)`. -/
def refineId (o : LocOptions) (b : BaseField) (l : Locator) : Locator :=
  match strVal o.id with
  | some s => if b = BaseField.id then l else Locator.cssChild l ("#" ++ s)
  | none => l

/-- `if (classes && baseUsed !== "classes") locator = locator.locator('.' + classes)`. -/
def refineClasses (o : LocOptions) (b : BaseField) (l : Locator) : Locator :=
  match strVal o.classes with
  | some s => if b = BaseField.classes then l else Locator.cssChild l ("." ++ s)
  | none => l

/-- `if (role && baseUsed !== "role") locator = locator.getByRole(role, ...)`. -/
def refineRole (o : LocOptions) (b : BaseField) (l : Locator) : Locator :=
  match strVal o.role with
  | some r => if b = BaseField.role then l else Locator.roleChild l r o.roleName
  | none => l

/-- `if (tag && baseUsed !== "tag") locator = locator.locator(tag)`. -/
def refineTag (o : LocOptions) (b : BaseField) (l : Locator) : Locator :=
  match strVal o.tag with
  | some s => if b = BaseField.tag then l else Locator.cssChild l s
  | none => l

/-- `if (text && baseUsed !== "text") locator = locator.filter(\x7bhasText: text\x7d)`. -/
def refineText (o : LocOptions) (b : BaseField) (l : Locator) : Locator :=
  match strVal o.text with
  | some s => if b = BaseField.text then l else Locator.filterHasText l s
  | none => l

/-- The trailing `nth` handling shared by all methods. -/
def applyNth (o : LocOptions) (l : Locator) : Locator :=
  match o.nth with
  | some (NthSel.num n) => Locator.nthSel l n
  | some NthSel.last => Locator.lastSel l
  | none => l

/-- Locator resolution of `clickElement` (`src/helpers/pageClass.ts` lines
1148-1222): base chain, then refinements id, classes, role, tag, text, then
nth.  A thrown `Error` is embedded as `Except.error` with its message. -/
def clickElementLocator (o : LocOptions) : Except String Locator :=
  match baseVisible o with
  | none => Except.error "Must provide at least one of testId, tag, role, or text."
  | some (l, b) =>
    Except.ok (applyNth o (refineText o b (refineTag o b (refineRole o b
      (refineClasses o b (refineId o b l))))))

/-- Locator resolution of `TestVisible` (`src/helpers/pageClass.ts` lines
717-789): base chain, then refinements id, role, tag, text (there is no
classes refinement in this method), then nth. -/
def TestVisibleLocator (o : LocOptions) : Except String Locator :=
  match baseVisible o with
  | none => Except.error "Must provide at least one of testId, tag, role, or text."
  | some (l, b) =>
    Except.ok (applyNth o (refineText o b (refineTag o b (refineRole o b
      (refineId o b l)))))

/-- Locator resolution of `TestExist` (`src/helpers/pageClass.ts` lines
801-873): identical to `TestVisible`, including the absent classes
refinement. -/
def TestExistLocator (o : LocOptions) : Except String Locator :=
  match baseVisible o with
  | none => Except.error "Must provide at least one of testId, tag, role, or text."
  | some (l, b) =>
    Except.ok (applyNth o (refineText o b (refineTag o b (refineRole o b
      (refineId o b l)))))

/-- Locator resolution of `verifyText` (`src/helpers/pageClass.ts` lines
445-501): base chain without text, then refinements id, classes, role, tag,
then nth. -/
def verifyTextLocator (o : LocOptions) : Except String Locator :=
  match baseVerifyText o with
  | none => Except.error "Must provide at least one of testId, id, classes, tag, or role."
  | some (l, b) =>
    Except.ok (applyNth o (refineTag o b (refineRole o b (refineClasses o b
      (refineId o b l)))))

/-!
A resolver written from the words of the spec (section 4.2): the base is the
first non-empty field in the priority order testId, id, classes, tag, role,
text; every other field present in the criteria object is applied as a
sequential refinement in the fixed order id, classes, role, tag, text; the
index selection is applied last.  The configuration records which call-site
variation applies (whether classes is refined, and the error message).
-/

/-- Call-site configuration for the spec-side resolver. -/
structure ResolverCfg where
  refinesClasses : Bool
  errMsg : String

/-- The base query a single field would establish, when the field is
non-empty. -/
def baseFor (o : LocOptions) (f : BaseField) : Option Locator :=
  match f with
  | BaseField.testId => (strVal o.testId).map Locator.byTestId
  | BaseField.id => (strVal o.id).map (fun s => Locator.cssBase ("#" ++ s))
  | BaseField.classes => (strVal o.classes).map (fun s => Locator.cssBase ("." ++ s))
  | BaseField.tag => (strVal o.tag).map Locator.cssBase
  | BaseField.role => (strVal o.role).map (fun r => Locator.byRoleBase r o.roleName)
  | BaseField.text => (strVal o.text).map Locator.byTextBase

/-- The fixed base priority order of the spec. -/
def basePriority : List BaseField :=
  [BaseField.testId, BaseField.id, BaseField.classes, BaseField.tag,
   BaseField.role, BaseField.text]

/-- Apply one field as a refinement of an already-formed query (AND
semantics); absent fields refine nothing. -/
def applyField (o : LocOptions) (f : BaseField) (l : Locator) : Locator :=
  match f with
  | BaseField.testId => l
  | BaseField.id =>
    match strVal o.id with
    | some s => Locator.cssChild l ("#" ++ s)
    | none => l
  | BaseField.classes =>
    match strVal o.classes with
    | some s => Locator.cssChild l ("." ++ s)
    | none => l
  | BaseField.role =>
    match strVal o.role with
    | some r => Locator.roleChild l r o.roleName
    | none => l
  | BaseField.tag =>
    match strVal o.tag with
    | some s => Locator.cssChild l s
    | none => l
  | BaseField.text =>
    match strVal o.text with
    | some s => Locator.filterHasText l s
    | none => l

/-- The fixed refinement order of the spec, per call-site configuration. -/
def fieldOrder (cfg : ResolverCfg) : List BaseField :=
  [BaseField.id] ++ (if cfg.refinesClasses then [BaseField.classes] else []) ++
  [BaseField.role, BaseField.tag, BaseField.text]

/-- The spec-side resolver: first non-empty field in priority order is the
base; every other non-empty field is an AND refinement in fixed order; the
index selection comes last; no field at all is an error. -/
def specResolve (cfg : ResolverCfg) (o : LocOptions) : Except String Locator :=
  match basePriority.findSome? (fun f => (baseFor o f).map (fun l => (f, l))) with
  | none => Except.error cfg.errMsg
  | some (b, l) =>
    Except.ok (applyNth o
      ((fieldOrder cfg).foldl (fun acc f => if f = b then acc else applyField o f acc) l))

/-- Configuration of `clickElement`: all five refinements. -/
def clickCfg : ResolverCfg :=
  ⟨true, "Must provide at least one of testId, tag, role, or text."⟩

/-- Configuration of `TestVisible` and `TestExist`: no classes refinement. -/
def visibleCfg : ResolverCfg :=
  ⟨false, "Must provide at least one of testId, tag, role, or text."⟩

/-- Does a given CSS selector string occur anywhere in a locator chain? -/
def selOccurs (s : String) : Locator → Bool
  | Locator.byTestId _ => false
  | Locator.cssBase sel => sel == s
  | Locator.byRoleBase _ _ => false
  | Locator.byTextBase _ => false
  | Locator.cssChild p sel => sel == s || selOccurs s p
  | Locator.roleChild p _ _ => selOccurs s p
  | Locator.filterHasText p _ => selOccurs s p
  | Locator.nthSel p _ => selOccurs s p
  | Locator.lastSel p => selOccurs s p

/-! General helper lemmas about the matcher building blocks. -/

theorem litP_append (p r : List Char) : litP p (p ++ r) = some r := by
  induction p with
  | nil => rfl
  | cons c cs ih => simp [litP, ih]

theorem litP_chain (a b t : List Char) : litP (a ++ b) t = (litP a t).bind (litP b) := by
  induction a generalizing t with
  | nil => simp [litP]
  | cons c cs ih =>
    cases t with
    | nil => simp [litP]
    | cons d ds =>
      cases h : c == d with
      | true => simp [litP, h, ih]
      | false => simp [litP, h]

theorem self_mem_tails (l : List Char) : l ∈ l.tails :=
  (List.mem_tails l l).mpr (List.suffix_refl l)

theorem containsSeq_mono (p q l : List Char) (h : containsSeq (p ++ q) l = true) :
    containsSeq p l = true := by
  rcases List.any_eq_true.mp h with ⟨t, ht, hpq⟩
  refine List.any_eq_true.mpr ⟨t, ht, ?_⟩
  rw [litP_chain] at hpq
  cases hx : litP p t with
  | none => rw [hx] at hpq; simp at hpq
  | some w => simp

theorem vrest_of_vtail {l : List Char} (h : vtail l = true) : vrest l = true := by
  cases l <;> simp [vrest, h]

theorem vrest_append {a b : List Char} (ha : a.all notNL = true) (hb : vtail b = true) :
    vrest (a ++ b) = true := by
  induction a with
  | nil => simpa using vrest_of_vtail hb
  | cons c cs ih =>
    simp only [List.all_cons, Bool.and_eq_true] at ha
    simp [vrest, ha.1, ih ha.2]

theorem vtail_build {e tq : List Char} (he : e ∈ videoExts)
    (hq : tq = [] ∨ ∃ qs, qs.all notNL = true ∧ tq = '?' :: qs) :
    vtail ('.' :: (e ++ tq)) = true := by
  refine List.any_eq_true.mpr ⟨e, he, ?_⟩
  have h1 : litP ('.' :: e) ('.' :: (e ++ tq)) = some tq := by
    have h2 := litP_append ('.' :: e) tq
    simpa using h2
  rcases hq with rfl | ⟨qs, hqs, rfl⟩
  · simp only [List.append_nil] at h1
    simp [vtail, h1]
  · simp [vtail, h1, hqs]

theorem videoAt_http (r : List Char) :
    videoAt (("http://" : String).data ++ r) = vrest r := rfl

theorem videoAt_https (r : List Char) :
    videoAt (("https://" : String).data ++ r) = vrest r := rfl

theorem videoTest_of_videoAt {l : List Char} (h : videoAt l = true) : videoTest l = true :=
  List.any_eq_true.mpr ⟨l, self_mem_tails l, h⟩

theorem exceptAt_canonExt (extra : List Char) : exceptAt (canonUrl.data ++ extra) = true := rfl

/-- Claim C7: the classifier is total with a closed output set: for every pair
of input strings it returns one of the six tags, and when no pattern matches
and no ignore-list entry (literal URL or financial-results page) applies, it
returns the default tag (the string literal is `NONE` in the source). -/
theorem claim_C7_total (m fr url page : String) :
    LinkType m fr url page ∈ (["Video", "GA", "YT", "Ignore", "Exception", "NONE"] : List String) ∧
    (videoTest url.data = false → gaTest url.data = false → ytTest url.data = false →
     recTest url.data = false → exceptTest url.data = false →
     url ∉ exceptUrls m → page ∉ exceptPages m fr →
     LinkType m fr url page = "NONE") := by
  constructor
  · unfold LinkType
    repeat' split
    all_goals decide
  · intro h1 h2 h3 h4 h5 h6 h7
    have hc : ((exceptUrls m).any (fun e => e == url) ||
        (exceptPages m fr).any (fun e => e == page)) = false := by
      refine Bool.eq_false_iff.mpr (fun hc => ?_)
      rcases Bool.or_eq_true_iff.mp hc with h | h
      · rcases List.any_eq_true.mp h with ⟨x, hx, hxe⟩
        exact h6 ((beq_iff_eq.mp hxe) ▸ hx)
      · rcases List.any_eq_true.mp h with ⟨x, hx, hxe⟩
        exact h7 ((beq_iff_eq.mp hxe) ▸ hx)
    simp [LinkType, h1, h2, h3, h4, h5, hc]

/-- Witness for C7 at a concrete plain first-party URL. -/
theorem claim_C7_total_witness :
    LinkType "https://www.site.example/" "financial-results"
      "https://example.com/api/data" "https://www.site.example/home" = "NONE" :=
  (claim_C7_total "https://www.site.example/" "financial-results"
      "https://example.com/api/data" "https://www.site.example/home").2
    (by decide) (by decide) (by decide) (by decide) (by decide) (by decide) (by decide)

/-- Claim C3: the classifier evaluates its rules in the fixed order Video,
GA, YT, recaptcha-Ignore, Exception, literal/page Ignore, default, with
first-match-wins semantics: rule k determines the tag only when no rule
before k matches; in particular a URL matching the media-file pattern is
classified Video irrespective of any later pattern, and the ignore-list check
is reached only when all pattern rules fail. -/
theorem claim_C3_order (m fr url page : String) :
    (videoTest url.data = true → LinkType m fr url page = "Video") ∧
    (videoTest url.data = false → gaTest url.data = true →
      LinkType m fr url page = "GA") ∧
    (videoTest url.data = false → gaTest url.data = false → ytTest url.data = true →
      LinkType m fr url page = "YT") ∧
    (videoTest url.data = false → gaTest url.data = false → ytTest url.data = false →
      recTest url.data = true → LinkType m fr url page = "Ignore") ∧
    (videoTest url.data = false → gaTest url.data = false → ytTest url.data = false →
      recTest url.data = false → exceptTest url.data = true →
      LinkType m fr url page = "Exception") ∧
    (videoTest url.data = false → gaTest url.data = false → ytTest url.data = false →
      recTest url.data = false → exceptTest url.data = false →
      (url ∈ exceptUrls m ∨ page ∈ exceptPages m fr) →
      LinkType m fr url page = "Ignore") ∧
    (videoTest url.data = false → gaTest url.data = false → ytTest url.data = false →
      recTest url.data = false → exceptTest url.data = false →
      ¬ (url ∈ exceptUrls m ∨ page ∈ exceptPages m fr) →
      LinkType m fr url page = "NONE") := by
  refine ⟨?_, ?_, ?_, ?_, ?_, ?_, ?_⟩
  · intro h1; simp [LinkType, h1]
  · intro h1 h2; simp [LinkType, h1, h2]
  · intro h1 h2 h3; simp [LinkType, h1, h2, h3]
  · intro h1 h2 h3 h4; simp [LinkType, h1, h2, h3, h4]
  · intro h1 h2 h3 h4 h5; simp [LinkType, h1, h2, h3, h4, h5]
  · intro h1 h2 h3 h4 h5 h6
    have hc : ((exceptUrls m).any (fun e => e == url) ||
        (exceptPages m fr).any (fun e => e == page)) = true := by
      rcases h6 with h | h
      · exact Bool.or_eq_true_iff.mpr (Or.inl (List.any_eq_true.mpr ⟨url, h, beq_self_eq_true url⟩))
      · exact Bool.or_eq_true_iff.mpr (Or.inr (List.any_eq_true.mpr ⟨page, h, beq_self_eq_true page⟩))
    simp [LinkType, h1, h2, h3, h4, h5, hc]
  · intro h1 h2 h3 h4 h5 h6
    have hc : ((exceptUrls m).any (fun e => e == url) ||
        (exceptPages m fr).any (fun e => e == page)) = false := by
      refine Bool.eq_false_iff.mpr (fun hc => ?_)
      rcases Bool.or_eq_true_iff.mp hc with h | h
      · rcases List.any_eq_true.mp h with ⟨x, hx, hxe⟩
        exact h6 (Or.inl ((beq_iff_eq.mp hxe) ▸ hx))
      · rcases List.any_eq_true.mp h with ⟨x, hx, hxe⟩
        exact h6 (Or.inr ((beq_iff_eq.mp hxe) ▸ hx))
    simp [LinkType, h1, h2, h3, h4, h5, hc]

/-- Witness for C3: a URL matching both the media-file pattern and the
YouTube shorts pattern is classified Video (the earlier rule wins). -/
theorem claim_C3_order_witness :
    videoTest ("https://www.youtube.com/shorts/clip.mp4" : String).data = true ∧
    ytTest ("https://www.youtube.com/shorts/clip.mp4" : String).data = true ∧
    LinkType "https://www.site.example/" "financial-results"
      "https://www.youtube.com/shorts/clip.mp4" "p" = "Video" :=
  ⟨by decide, by decide,
   (claim_C3_order "https://www.site.example/" "financial-results"
      "https://www.youtube.com/shorts/clip.mp4" "p").1 (by decide)⟩

theorem recTest_eq_recTest1 (l : List Char) : recTest l = recTest1 l := by
  cases hb : recTest1 l with
  | true => simp [recTest, hb]
  | false =>
    have h2 : recTest2 l = false := by
      cases h : recTest2 l with
      | false => rfl
      | true =>
        have := containsSeq_mono recPat1 (("api2/" : String).data) l h
        rw [show containsSeq recPat1 l = recTest1 l from rfl, hb] at this
        exact absurd this (by simp)
    have h3 : recTest3 l = false := by
      cases h : recTest3 l with
      | false => rfl
      | true =>
        have := containsSeq_mono recPat1 (("enterprise/" : String).data) l h
        rw [show containsSeq recPat1 l = recTest1 l from rfl, hb] at this
        exact absurd this (by simp)
    simp [recTest, hb, h2, h3]

/-- Claim C10: the second and third recaptcha patterns are redundant: the
variant of the classifier that keeps only the first recaptcha pattern agrees
with the actual classifier on every input. -/
theorem claim_C10_redundant (m fr url page : String) :
    LinkTypeSingleRecaptcha m fr url page = LinkType m fr url page := by
  simp only [LinkType, LinkTypeSingleRecaptcha, recTest_eq_recTest1]

/-- Counterexample to claim C1 as stated: on the financial-results page, a
request whose URL matches the media-file pattern is classified Video, not
Ignore, because the page-based ignore rule runs after the pattern rules. -/
theorem claim_C1_counterexample :
    ¬ (LinkType "https://www.site.example/" "financial-results"
        "https://cdn.example.com/clip.mp4"
        ("https://www.site.example/" ++ "financial-results") = "Ignore") ∧
    LinkType "https://www.site.example/" "financial-results"
        "https://cdn.example.com/clip.mp4"
        ("https://www.site.example/" ++ "financial-results") = "Video" := by
  constructor
  · decide
  · decide

/-- Claim C1 amended: whenever the current page URL equals the configured
financial-results page URL and the request URL matches none of the earlier
pattern rules (media-file, GA, YouTube, recaptcha, beacon), the classifier
returns Ignore, regardless of the request URL otherwise. -/
theorem claim_C1_amended (m fr url page : String)
    (h1 : videoTest url.data = false) (h2 : gaTest url.data = false)
    (h3 : ytTest url.data = false) (h4 : recTest url.data = false)
    (h5 : exceptTest url.data = false) (hp : page = m ++ fr) :
    LinkType m fr url page = "Ignore" := by
  subst hp
  have hc : ((exceptUrls m).any (fun e => e == url) ||
      (exceptPages m fr).any (fun e => e == (m ++ fr))) = true := by
    simp [exceptPages]
  simp [LinkType, h1, h2, h3, h4, h5, hc]

/-- Witness for the amended C1 at a concrete plain first-party request on the
financial-results page. -/
theorem claim_C1_amended_witness :
    LinkType "https://www.site.example/" "financial-results"
      "https://www.site.example/api/data"
      ("https://www.site.example/" ++ "financial-results") = "Ignore" :=
  claim_C1_amended "https://www.site.example/" "financial-results"
    "https://www.site.example/api/data" ("https://www.site.example/" ++ "financial-results")
    (by decide) (by decide) (by decide) (by decide) (by decide) rfl

/-- Claim C9: the Exception pattern is unanchored, so any URL containing the
canonical beacon shape as a substring (in particular the canonical URL
extended with further appended query parameters) is still classified
Exception, provided no earlier rule matches it. -/
theorem claim_C9_unanchored (m fr page pre post : String)
    (h1 : videoTest (pre ++ canonUrl ++ post).data = false)
    (h2 : gaTest (pre ++ canonUrl ++ post).data = false)
    (h3 : ytTest (pre ++ canonUrl ++ post).data = false)
    (h4 : recTest (pre ++ canonUrl ++ post).data = false) :
    LinkType m fr (pre ++ canonUrl ++ post) page = "Exception" := by
  have he : exceptTest (pre ++ canonUrl ++ post).data = true := by
    refine List.any_eq_true.mpr ⟨canonUrl.data ++ post.data, ?_, exceptAt_canonExt post.data⟩
    refine (List.mem_tails _ _).mpr ?_
    have hsplit : (pre ++ canonUrl ++ post).data = pre.data ++ (canonUrl.data ++ post.data) := by
      simp [String.data_append, List.append_assoc]
    rw [hsplit]
    exact List.suffix_append _ _
  simp only [String.data_append, List.append_assoc] at h1 h2 h3 h4 he
  simp [LinkType, h1, h2, h3, h4, he]

/-- Witness for C9: the canonical beacon URL with one extra appended query
parameter is classified Exception. -/
theorem claim_C9_unanchored_witness :
    LinkType "https://www.site.example/" "financial-results"
      ("" ++ canonUrl ++ "&extra=9") "p" = "Exception" :=
  claim_C9_unanchored "https://www.site.example/" "financial-results" "p" "" "&extra=9"
    (by decide) (by decide) (by decide) (by decide)

/-- Claim C8: every URL with http or https scheme whose path ends in one of
the media extensions, with or without a trailing query string, is classified
Video.  URLs contain no line-terminator characters, which is captured by the
`notNL` hypotheses on the path and query parts. -/
theorem claim_C8_video (m fr page scheme path ext q : String)
    (hs : scheme = "http" ∨ scheme = "https")
    (hpath : path.data.all notNL = true)
    (hext : ext ∈ (["mp4", "webm", "ogg", "mp3", "wav", "m4a", "flac", "aac"] : List String))
    (hq : q = "" ∨ ∃ qs : String, qs.data.all notNL = true ∧ q = "?" ++ qs) :
    LinkType m fr (scheme ++ "://" ++ path ++ "." ++ ext ++ q) page = "Video" := by
  have hextD : ext.data ∈ videoExts := by
    fin_cases hext <;> decide
  have hqD : q.data = [] ∨ ∃ qs, qs.all notNL = true ∧ q.data = '?' :: qs := by
    rcases hq with rfl | ⟨qs, hqs, rfl⟩
    · exact Or.inl rfl
    · exact Or.inr ⟨qs.data, hqs, rfl⟩
  have d2 : ("://" : String).data = [':', '/', '/'] := rfl
  have d3 : ("." : String).data = ['.'] := rfl
  have hv : videoTest (scheme ++ "://" ++ path ++ "." ++ ext ++ q).data = true := by
    apply videoTest_of_videoAt
    rcases hs with rfl | rfl
    · have d1 : ("http" : String).data = ['h', 't', 't', 'p'] := rfl
      have d4 : ("http://" : String).data = ['h', 't', 't', 'p', ':', '/', '/'] := rfl
      have hu : ("http" ++ "://" ++ path ++ "." ++ ext ++ q).data
          = ("http://" : String).data ++ (path.data ++ ('.' :: (ext.data ++ q.data))) := by
        simp [String.data_append, d1, d2, d3, d4]
      rw [hu, videoAt_http]
      exact vrest_append hpath (vtail_build hextD hqD)
    · have d1 : ("https" : String).data = ['h', 't', 't', 'p', 's'] := rfl
      have d4 : ("https://" : String).data = ['h', 't', 't', 'p', 's', ':', '/', '/'] := rfl
      have hu : ("https" ++ "://" ++ path ++ "." ++ ext ++ q).data
          = ("https://" : String).data ++ (path.data ++ ('.' :: (ext.data ++ q.data))) := by
        simp [String.data_append, d1, d2, d3, d4]
      rw [hu, videoAt_https]
      exact vrest_append hpath (vtail_build hextD hqD)
  simp only [String.data_append, d2, d3, List.append_assoc, List.cons_append,
    List.singleton_append, List.nil_append] at hv
  simp [LinkType, hv]

/-- Witness for C8 at a concrete media URL with a query string. -/
theorem claim_C8_video_witness :
    LinkType "https://www.site.example/" "financial-results"
      ("https" ++ "://" ++ "cdn.example.com/media/v" ++ "." ++ "mp4" ++ "?t=1") "p" = "Video" :=
  claim_C8_video "https://www.site.example/" "financial-results" "p"
    "https" "cdn.example.com/media/v" "mp4" "?t=1"
    (Or.inr rfl) (by decide) (by decide)
    (Or.inr ⟨"t=1", by decide, rfl⟩)

/-- Claim C5: supplying both testId and id to clickElement is not an error;
the base query is built from testId and the id is applied as a descendant
refinement of that base (AND semantics: `locator.locator('#' + id)`), never
as an alternative base. -/
theorem claim_C5_testId_id (x y : String) (hx : x ≠ "") (hy : y ≠ "") :
    clickElementLocator ⟨some x, some y, none, none, none, none, none, none⟩ =
      Except.ok (Locator.cssChild (Locator.byTestId x) ("#" ++ y)) := by
  have hx2 : (x == "") = false := beq_eq_false_iff_ne.mpr hx
  have hy2 : (y == "") = false := beq_eq_false_iff_ne.mpr hy
  simp [clickElementLocator, baseVisible, strVal, hx2, hy2, refineId, refineClasses,
    refineRole, refineTag, refineText, applyNth]

/-- Witness for C5 at concrete criteria. -/
theorem claim_C5_testId_id_witness :
    clickElementLocator ⟨some "x", some "y", none, none, none, none, none, none⟩ =
      Except.ok (Locator.cssChild (Locator.byTestId "x") ("#" ++ "y")) :=
  claim_C5_testId_id "x" "y" (by decide) (by decide)

/-- Claim C6: every embedded locator-resolution method fails with the
invalid-criteria error when zero base-eligible fields are supplied, and a
field that is not base-eligible at a call site cannot rescue resolution: in
verifyText, where text is not base-eligible, criteria carrying only a
non-empty text still produce the error instead of a locator. -/
theorem claim_C6_invalid (o : LocOptions)
    (h1 : strVal o.testId = none) (h2 : strVal o.id = none)
    (h3 : strVal o.classes = none) (h4 : strVal o.tag = none)
    (h5 : strVal o.role = none) (h6 : strVal o.text = none) :
    (verifyTextLocator o =
        Except.error "Must provide at least one of testId, id, classes, tag, or role." ∧
     TestVisibleLocator o =
        Except.error "Must provide at least one of testId, tag, role, or text." ∧
     TestExistLocator o =
        Except.error "Must provide at least one of testId, tag, role, or text." ∧
     clickElementLocator o =
        Except.error "Must provide at least one of testId, tag, role, or text.") ∧
    (∀ s : String, s ≠ "" →
      verifyTextLocator ⟨none, none, none, none, none, none, some s, none⟩ =
        Except.error "Must provide at least one of testId, id, classes, tag, or role.") := by
  constructor
  · refine ⟨?_, ?_, ?_, ?_⟩ <;>
      simp [verifyTextLocator, TestVisibleLocator, TestExistLocator, clickElementLocator,
        baseVisible, baseVerifyText, h1, h2, h3, h4, h5, h6]
  · intro s hs
    simp [verifyTextLocator, baseVerifyText, strVal]

/-- Witness for C6 at empty criteria and at text-only criteria. -/
theorem claim_C6_invalid_witness :
    verifyTextLocator emptyOpts =
      Except.error "Must provide at least one of testId, id, classes, tag, or role." ∧
    verifyTextLocator ⟨none, none, none, none, none, none, some "Submit", none⟩ =
      Except.error "Must provide at least one of testId, id, classes, tag, or role." :=
  ⟨(claim_C6_invalid emptyOpts rfl rfl rfl rfl rfl rfl).1.1,
   (claim_C6_invalid emptyOpts rfl rfl rfl rfl rfl rfl).2 "Submit" (by decide)⟩

/-- Counterexample to claim C2 as stated: in TestVisible, with criteria
supplying testId and classes, the non-empty classes field is silently
dropped: the resolved locator is the bare testId base and the class selector
occurs nowhere in it, while clickElement on the same criteria does refine by
the class selector. -/
theorem claim_C2_counterexample :
    TestVisibleLocator ⟨some "x", none, some "c", none, none, none, none, none⟩ =
      Except.ok (Locator.byTestId "x") ∧
    selOccurs ".c" (Locator.byTestId "x") = false ∧
    clickElementLocator ⟨some "x", none, some "c", none, none, none, none, none⟩ =
      Except.ok (Locator.cssChild (Locator.byTestId "x") ".c") :=
  ⟨rfl, by decide, rfl⟩

theorem clickElement_eq_specResolve (o : LocOptions) :
    clickElementLocator o = specResolve clickCfg o := by
  obtain ⟨t, i, c, g, r, rn, x, n⟩ := o
  rcases hT : strVal t with _ | sT <;>
  rcases hI : strVal i with _ | sI <;>
  rcases hC : strVal c with _ | sC <;>
  rcases hG : strVal g with _ | sG <;>
  rcases hR : strVal r with _ | sR <;>
  rcases hX : strVal x with _ | sX <;>
    simp [clickElementLocator, specResolve, baseVisible, baseFor, basePriority,
      applyField, fieldOrder, clickCfg, refineId, refineClasses, refineRole,
      refineTag, refineText, hT, hI, hC, hG, hR, hX]

theorem TestVisible_eq_specResolve (o : LocOptions) :
    TestVisibleLocator o = specResolve visibleCfg o := by
  obtain ⟨t, i, c, g, r, rn, x, n⟩ := o
  rcases hT : strVal t with _ | sT <;>
  rcases hI : strVal i with _ | sI <;>
  rcases hC : strVal c with _ | sC <;>
  rcases hG : strVal g with _ | sG <;>
  rcases hR : strVal r with _ | sR <;>
  rcases hX : strVal x with _ | sX <;>
    simp [TestVisibleLocator, specResolve, baseVisible, baseFor, basePriority,
      applyField, fieldOrder, visibleCfg, refineId, refineRole,
      refineTag, refineText, hT, hI, hC, hG, hR, hX]

theorem TestExist_eq_specResolve (o : LocOptions) :
    TestExistLocator o = specResolve visibleCfg o := by
  obtain ⟨t, i, c, g, r, rn, x, n⟩ := o
  rcases hT : strVal t with _ | sT <;>
  rcases hI : strVal i with _ | sI <;>
  rcases hC : strVal c with _ | sC <;>
  rcases hG : strVal g with _ | sG <;>
  rcases hR : strVal r with _ | sR <;>
  rcases hX : strVal x with _ | sX <;>
    simp [TestExistLocator, specResolve, baseVisible, baseFor, basePriority,
      applyField, fieldOrder, visibleCfg, refineId, refineRole,
      refineTag, refineText, hT, hI, hC, hG, hR, hX]

/-- Claim C2 amended: in clickElement, exactly one field (the first non-empty
one in the order testId, id, classes, tag, role, text) establishes the base
query and every other non-empty base-eligible field is applied as an AND
refinement in the fixed order id, classes, role, tag, text; TestVisible and
TestExist satisfy the same invariant except that they never apply classes as
a refinement: when another field is the base, a non-empty classes field is
silently dropped (so the locator does not depend on it at all). -/
theorem claim_C2_amended :
    (∀ o : LocOptions, clickElementLocator o = specResolve clickCfg o) ∧
    (∀ o : LocOptions, TestVisibleLocator o = specResolve visibleCfg o) ∧
    (∀ o : LocOptions, TestExistLocator o = specResolve visibleCfg o) ∧
    (∀ o : LocOptions, strVal o.testId ≠ none ∨ strVal o.id ≠ none →
      TestVisibleLocator o = TestVisibleLocator { o with classes := none }) :=
  ⟨clickElement_eq_specResolve, TestVisible_eq_specResolve, TestExist_eq_specResolve,
   by
    intro o h
    obtain ⟨t, i, c, g, r, rn, x, n⟩ := o
    rcases hT : strVal t with _ | sT <;> rcases hI : strVal i with _ | sI
    · simp [hT, hI] at h
    all_goals
      simp [TestVisibleLocator, baseVisible, refineId, refineRole, refineTag,
        refineText, applyNth, hT, hI]⟩

/-- Witness for the amended C2 at concrete criteria with testId and classes. -/
theorem claim_C2_amended_witness :
    TestVisibleLocator ⟨some "x", none, some "c", none, none, none, none, none⟩ =
      TestVisibleLocator ⟨some "x", none, none, none, none, none, none, none⟩ :=
  claim_C2_amended.2.2.2 ⟨some "x", none, some "c", none, none, none, none, none⟩
    (Or.inl (by decide))

theorem foldl_runStage_none (ss : List (List Char × (Char → Bool))) :
    ss.foldl runStage none = none := by
  induction ss with
  | nil => rfl
  | cons s ss ih => simpa [runStage] using ih

theorem exceptAt_head {t : List Char} (h : exceptAt t = true) : ∃ u, t = 'h' :: u := by
  cases t with
  | nil => exact absurd h (by decide)
  | cons d ds =>
    cases hd : 'h' == d with
    | true => exact ⟨ds, by rw [← beq_iff_eq.mp hd]⟩
    | false =>
      exfalso
      have hfalse : exceptAt (d :: ds) = false := by
        have hl : litP (("https://stats.g.doubleclick.net/g/collect?v=" : String).data)
            (d :: ds) = none := by
          show (if 'h' == d then litP _ ds else none) = none
          rw [hd]
          rfl
        unfold exceptAt
        rw [hl]
        simpa using congrArg Option.isSome (foldl_runStage_none excStages)
      rw [hfalse] at h
      exact Bool.noConfusion h

theorem exceptAt_force (qs : List (List Char)) (h : ∀ x ∈ qs, x ∈ canonParams)
    (hm : exceptAt (buildUrl qs) = true) : canonParams <+: qs := by
  obtain _ | ⟨x0, t0⟩ := qs
  · exact Bool.noConfusion hm
  have hx0 : x0 ∈ canonParams := h x0 (by simp)
  simp only [canonParams, List.mem_cons, List.not_mem_nil, or_false] at hx0
  rcases hx0 with rfl | rfl | rfl | rfl | rfl | rfl | rfl | rfl | rfl | rfl <;>
    try exact Bool.noConfusion hm
  obtain _ | ⟨x1, t1⟩ := t0
  · exact Bool.noConfusion hm
  have hx1 : x1 ∈ canonParams := h x1 (by simp)
  simp only [canonParams, List.mem_cons, List.not_mem_nil, or_false] at hx1
  rcases hx1 with rfl | rfl | rfl | rfl | rfl | rfl | rfl | rfl | rfl | rfl <;>
    try exact Bool.noConfusion hm
  obtain _ | ⟨x2, t2⟩ := t1
  · exact Bool.noConfusion hm
  have hx2 : x2 ∈ canonParams := h x2 (by simp)
  simp only [canonParams, List.mem_cons, List.not_mem_nil, or_false] at hx2
  rcases hx2 with rfl | rfl | rfl | rfl | rfl | rfl | rfl | rfl | rfl | rfl <;>
    try exact Bool.noConfusion hm
  obtain _ | ⟨x3, t3⟩ := t2
  · exact Bool.noConfusion hm
  have hx3 : x3 ∈ canonParams := h x3 (by simp)
  simp only [canonParams, List.mem_cons, List.not_mem_nil, or_false] at hx3
  rcases hx3 with rfl | rfl | rfl | rfl | rfl | rfl | rfl | rfl | rfl | rfl <;>
    try exact Bool.noConfusion hm
  obtain _ | ⟨x4, t4⟩ := t3
  · exact Bool.noConfusion hm
  have hx4 : x4 ∈ canonParams := h x4 (by simp)
  simp only [canonParams, List.mem_cons, List.not_mem_nil, or_false] at hx4
  rcases hx4 with rfl | rfl | rfl | rfl | rfl | rfl | rfl | rfl | rfl | rfl <;>
    try exact Bool.noConfusion hm
  obtain _ | ⟨x5, t5⟩ := t4
  · exact Bool.noConfusion hm
  have hx5 : x5 ∈ canonParams := h x5 (by simp)
  simp only [canonParams, List.mem_cons, List.not_mem_nil, or_false] at hx5
  rcases hx5 with rfl | rfl | rfl | rfl | rfl | rfl | rfl | rfl | rfl | rfl <;>
    try exact Bool.noConfusion hm
  obtain _ | ⟨x6, t6⟩ := t5
  · exact Bool.noConfusion hm
  have hx6 : x6 ∈ canonParams := h x6 (by simp)
  simp only [canonParams, List.mem_cons, List.not_mem_nil, or_false] at hx6
  rcases hx6 with rfl | rfl | rfl | rfl | rfl | rfl | rfl | rfl | rfl | rfl <;>
    try exact Bool.noConfusion hm
  obtain _ | ⟨x7, t7⟩ := t6
  · exact Bool.noConfusion hm
  have hx7 : x7 ∈ canonParams := h x7 (by simp)
  simp only [canonParams, List.mem_cons, List.not_mem_nil, or_false] at hx7
  rcases hx7 with rfl | rfl | rfl | rfl | rfl | rfl | rfl | rfl | rfl | rfl <;>
    try exact Bool.noConfusion hm
  obtain _ | ⟨x8, t8⟩ := t7
  · exact Bool.noConfusion hm
  have hx8 : x8 ∈ canonParams := h x8 (by simp)
  simp only [canonParams, List.mem_cons, List.not_mem_nil, or_false] at hx8
  rcases hx8 with rfl | rfl | rfl | rfl | rfl | rfl | rfl | rfl | rfl | rfl <;>
    try exact Bool.noConfusion hm
  obtain _ | ⟨x9, t9⟩ := t8
  · exact Bool.noConfusion hm
  have hx9 : x9 ∈ canonParams := h x9 (by simp)
  simp only [canonParams, List.mem_cons, List.not_mem_nil, or_false] at hx9
  rcases hx9 with rfl | rfl | rfl | rfl | rfl | rfl | rfl | rfl | rfl | rfl <;>
    try exact Bool.noConfusion hm
  exact ⟨t9, rfl⟩

theorem noH_mem {x : List Char} (hx : x ∈ canonParams) : 'h' ∉ x := by
  fin_cases hx <;> decide

theorem noH_joinTail {qs : List (List Char)} (h : ∀ x ∈ qs, x ∈ canonParams) :
    'h' ∉ joinTail qs := by
  induction qs with
  | nil => simp [joinTail]
  | cons x xs ih =>
    simp only [joinTail, List.mem_cons, List.mem_append]
    push_neg
    refine ⟨by decide, noH_mem (h x (by simp)), ?_⟩
    exact ih (fun y hy => h y (List.mem_cons_of_mem x hy))

theorem noH_joinAmp {qs : List (List Char)} (h : ∀ x ∈ qs, x ∈ canonParams) :
    'h' ∉ joinAmp qs := by
  cases qs with
  | nil => simp [joinAmp]
  | cons x xs =>
    simp only [joinAmp, List.mem_append]
    push_neg
    refine ⟨noH_mem (h x (by simp)), ?_⟩
    exact noH_joinTail (fun y hy => h y (List.mem_cons_of_mem x hy))

theorem tails_any_exceptAt_false {l : List Char} (hl : 'h' ∉ l) :
    l.tails.any exceptAt = false := by
  induction l with
  | nil => decide
  | cons c cs ih =>
    rw [List.tails_cons]
    simp only [List.any_cons]
    have h1 : exceptAt (c :: cs) = false := by
      cases he : exceptAt (c :: cs) with
      | false => rfl
      | true =>
        rcases exceptAt_head he with ⟨u, hu⟩
        injection hu with h2 h3
        subst h2
        exact absurd (List.mem_cons_self _ _) hl
    rw [h1, Bool.false_or]
    exact ih (fun hmem => hl (List.mem_cons_of_mem c hmem))

theorem exceptTest_to_at {qs : List (List Char)} (h : ∀ x ∈ qs, x ∈ canonParams)
    (ht : exceptTest (buildUrl qs) = true) : exceptAt (buildUrl qs) = true := by
  have hb : buildUrl qs =
      'h' :: (("ttps://stats.g.doubleclick.net/g/collect?" : String).data ++ joinAmp qs) := rfl
  rw [hb] at ht ⊢
  unfold exceptTest at ht
  rw [List.tails_cons] at ht
  simp only [List.any_cons] at ht
  have hrest : (("ttps://stats.g.doubleclick.net/g/collect?" : String).data
      ++ joinAmp qs).tails.any exceptAt = false := by
    apply tails_any_exceptAt_false
    rw [List.mem_append]
    push_neg
    exact ⟨by decide, noH_joinAmp h⟩
  rw [hrest, Bool.or_false] at ht
  exact ht

theorem buildStr_data (qs : List (List Char)) : (buildStr qs).data = buildUrl qs := rfl

theorem linkTypeNone (m fr url page : String)
    (h1 : videoTest url.data = false) (h2 : gaTest url.data = false)
    (h3 : ytTest url.data = false) (h4 : recTest url.data = false)
    (h5 : exceptTest url.data = false)
    (h6 : url ∉ exceptUrls m) (h7 : page ∉ exceptPages m fr) :
    LinkType m fr url page = "NONE" := by
  have hc : ((exceptUrls m).any (fun e => e == url) ||
      (exceptPages m fr).any (fun e => e == page)) = false := by
    refine Bool.eq_false_iff.mpr (fun hc => ?_)
    rcases Bool.or_eq_true_iff.mp hc with hcc | hcc
    · rcases List.any_eq_true.mp hcc with ⟨x, hx, hxe⟩
      exact h6 ((beq_iff_eq.mp hxe) ▸ hx)
    · rcases List.any_eq_true.mp hcc with ⟨x, hx, hxe⟩
      exact h7 ((beq_iff_eq.mp hxe) ▸ hx)
  simp [LinkType, h1, h2, h3, h4, h5, hc]

/-- Claim C4: the canonical beacon URL is classified Exception on every page;
any variant obtained by permuting its ten query parameters into a different
order, or by omitting any one of them, no longer matches the Exception
pattern, and (when no earlier rule matches it and no ignore-list entry or
financial-results page applies) is classified by the default tag. -/
theorem claim_C4_beacon :
    (∀ m fr page : String, LinkType m fr canonUrl page = "Exception") ∧
    (∀ qs : List (List Char), qs.Perm canonParams → qs ≠ canonParams →
      exceptTest (buildUrl qs) = false ∧
      (∀ m fr page : String,
        videoTest (buildUrl qs) = false → gaTest (buildUrl qs) = false →
        ytTest (buildUrl qs) = false → recTest (buildUrl qs) = false →
        buildStr qs ∉ exceptUrls m → page ∉ exceptPages m fr →
        LinkType m fr (buildStr qs) page = "NONE")) ∧
    (∀ i : Nat, i < 10 →
      exceptTest (buildUrl (canonParams.eraseIdx i)) = false ∧
      (∀ m fr page : String,
        videoTest (buildUrl (canonParams.eraseIdx i)) = false →
        gaTest (buildUrl (canonParams.eraseIdx i)) = false →
        ytTest (buildUrl (canonParams.eraseIdx i)) = false →
        recTest (buildUrl (canonParams.eraseIdx i)) = false →
        buildStr (canonParams.eraseIdx i) ∉ exceptUrls m → page ∉ exceptPages m fr →
        LinkType m fr (buildStr (canonParams.eraseIdx i)) page = "NONE")) := by
  refine ⟨?_, ?_, ?_⟩
  · intro m fr page
    rfl
  · intro qs hperm hne
    have hmem : ∀ x ∈ qs, x ∈ canonParams := fun x hx => (hperm.mem_iff).mp hx
    have hexc : exceptTest (buildUrl qs) = false := by
      cases he : exceptTest (buildUrl qs) with
      | false => rfl
      | true =>
        exfalso
        have hpre := exceptAt_force qs hmem (exceptTest_to_at hmem he)
        exact hne (hpre.eq_of_length (hperm.length_eq).symm).symm
    refine ⟨hexc, ?_⟩
    intro m fr page h1 h2 h3 h4 h6 h7
    refine linkTypeNone m fr (buildStr qs) page ?_ ?_ ?_ ?_ ?_ h6 h7 <;>
      rw [buildStr_data]
    · exact h1
    · exact h2
    · exact h3
    · exact h4
    · exact hexc
  · intro i hi
    have hmem : ∀ x ∈ canonParams.eraseIdx i, x ∈ canonParams :=
      fun x hx => List.mem_of_mem_eraseIdx hx
    have hexc : exceptTest (buildUrl (canonParams.eraseIdx i)) = false := by
      cases he : exceptTest (buildUrl (canonParams.eraseIdx i)) with
      | false => rfl
      | true =>
        exfalso
        have hpre := exceptAt_force _ hmem (exceptTest_to_at hmem he)
        have hic : i < canonParams.length := by
          rw [show canonParams.length = 10 from rfl]
          exact hi
        have hle := hpre.length_le
        rw [List.length_eraseIdx_of_lt hic, show canonParams.length = 10 from rfl] at hle
        omega
    refine ⟨hexc, ?_⟩
    intro m fr page h1 h2 h3 h4 h6 h7
    refine linkTypeNone m fr (buildStr (canonParams.eraseIdx i)) page ?_ ?_ ?_ ?_ ?_ h6 h7 <;>
      rw [buildStr_data]
    · exact h1
    · exact h2
    · exact h3
    · exact h4
    · exact hexc

/-- Witness for C4: the canonical URL is Exception; the variant with frm and
tag_exp swapped, and the variant omitting the first parameter, fall through
to the default tag. -/
theorem claim_C4_beacon_witness :
    LinkType "https://www.site.example/" "financial-results" canonUrl "p" = "Exception" ∧
    exceptTest (buildUrl [("v=1" : String).data, ("tid=G-ABC123" : String).data,
      ("cid=1.2" : String).data, ("gtm=xyz" : String).data, ("aip=1" : String).data,
      ("dma=1" : String).data, ("gcd=1" : String).data, ("npa=1" : String).data,
      ("tag_exp=1" : String).data, ("frm=1" : String).data]) = false ∧
    LinkType "https://www.site.example/" "financial-results"
      (buildStr [("v=1" : String).data, ("tid=G-ABC123" : String).data,
        ("cid=1.2" : String).data, ("gtm=xyz" : String).data, ("aip=1" : String).data,
        ("dma=1" : String).data, ("gcd=1" : String).data, ("npa=1" : String).data,
        ("tag_exp=1" : String).data, ("frm=1" : String).data]) "p" = "NONE" ∧
    exceptTest (buildUrl (canonParams.eraseIdx 0)) = false :=
  ⟨claim_C4_beacon.1 "https://www.site.example/" "financial-results" "p",
   (claim_C4_beacon.2.1 _ (by decide) (by decide)).1,
   (claim_C4_beacon.2.1 _ (by decide) (by decide)).2
     "https://www.site.example/" "financial-results" "p"
     (by decide) (by decide) (by decide) (by decide) (by decide) (by decide),
   (claim_C4_beacon.2.2 0 (by decide)).1⟩
